import Mathlib

/-!
Shallow embedding of `cloudinit/net/activators.py`: the network-activator
selection and dispatch subsystem of cloud-init.

External effects (subprocess execution, connection-file lookup, availability
probes of the renderer modules) are modelled by an explicit environment
`Env`.  Every operation returns, besides its Python return value, a trace of
observable events (commands issued through the helpers, log lines emitted).
Python exceptions are modelled with `Except PyErr`: a raised exception is an
`Except.error`, a normal return is `Except.ok`.
-/

namespace Activators

/-- Severity of an emitted log line. -/
inductive LogLevel where
  | debug
  | warning
  deriving DecidableEq, Repr

/-- Observable events: a command issued through `_alter_interface` (recording
the `warn_on_stderr` flag it was invoked with), a command issued directly via
`subp.subp`, and an emitted log line.  `call` is used only to instantiate the
generic per-interface primitive of the default `bring_up_interfaces`. -/
inductive Event where
  | cmd (c : List String) (warnOnStderr : Bool)
  | rawCmd (c : List String)
  | log (lvl : LogLevel) (msg : String)
  | call (device : String)
  deriving DecidableEq, Repr

/-- Outcome of executing one external command via `subp.subp`:
normal completion with captured stdout/stderr, a `ProcessExecutionError`
(non-zero exit or launch failure), or an exception of any other type. -/
inductive RunResult where
  | success (stdout stderr : String)
  | fail
  | exc (msg : String)
  deriving DecidableEq, Repr

/-- Outcome of invoking a zero-argument callable that returns an
`(out, err)` pair: normal completion, a `ProcessExecutionError` carrying the
failed command (its `cmd` attribute), or an exception of any other type. -/
inductive CallableOutcome where
  | success (stdout stderr : String)
  | processError (cmd : List String)
  | otherFailure (msg : String)
  deriving DecidableEq, Repr

/-- Python exceptions that the subsystem can raise or propagate. -/
inductive PyErr where
  | processExecutionError (cmd : List String)
  | valueError (msg : String)
  | noActivator (msg : String)
  | other (msg : String)
  deriving DecidableEq, Repr

/-- The external world: results of `subp.subp` per command, the
`network_manager.conn_filename` lookup, the availability probes of the
renderer modules, `subp.which` for ifconfig, and the `Iproute2`
link up/down callables. -/
structure Env where
  run : List String → RunResult
  connFilename : String → Option String
  eniAvailable : Bool
  netplanAvailable : Bool
  networkManagerAvailable : Bool
  networkdAvailable : Bool
  ifconfigWhich : Bool
  linkUp : String → CallableOutcome
  linkDown : String → CallableOutcome

/-- Python `str` of a string inside a list repr: quotes with `'`. -/
def pyReprStr (s : String) : String :=
  "\x27" ++ s ++ "\x27"

/-- Python `str`/`repr` of a list of strings: `['a', 'b']`. -/
def pyStrList (l : List String) : String :=
  "[" ++ String.intercalate ", " (l.map pyReprStr) ++ "]"

/-- `_alter_interface_callable(callable, warn_on_stderr)`: run the callable
once; on success log non-empty stderr (WARNING, or DEBUG when
`warn_on_stderr` is false) and return `True`; on `ProcessExecutionError` log
the failed command and return `False`; propagate any other exception. -/
def alter_interface_callable (r : CallableOutcome) (warn_on_stderr : Bool) :
    Except PyErr (Bool × List Event) :=
  match r with
  | .success _out err =>
      if err.length ≠ 0 then
        Except.ok (true,
          [Event.log (if warn_on_stderr then LogLevel.warning else LogLevel.debug)
            ("Received stderr output: " ++ err)])
      else
        Except.ok (true, [])
  | .processError cmd =>
      Except.ok (false,
        [Event.log LogLevel.warning
          ("Running interface command " ++ pyStrList cmd ++ " failed")])
  | .otherFailure msg => Except.error (PyErr.other msg)

/-- Interpret the environment answer for `subp.subp cmd` as the outcome of
the partially-applied callable `partial(subp.subp, cmd)`: a
`ProcessExecutionError` raised by `subp.subp cmd` carries `cmd`. -/
def runToOutcome (cmd : List String) : RunResult → CallableOutcome
  | .success o e => CallableOutcome.success o e
  | .fail => CallableOutcome.processError cmd
  | .exc m => CallableOutcome.otherFailure m

/-- `_alter_interface(cmd, device_name, warn_on_stderr)`: delegate to
`_alter_interface_callable` on `partial(subp.subp, cmd)`.  The issued command
is recorded in the trace together with the `warn_on_stderr` flag. -/
def alter_interface (env : Env) (cmd : List String) (_device_name : String)
    (warn_on_stderr : Bool) : Except PyErr (Bool × List Event) :=
  match alter_interface_callable (runToOutcome cmd (env.run cmd)) warn_on_stderr with
  | .ok (b, t) => Except.ok (b, Event.cmd cmd warn_on_stderr :: t)
  | .error e => Except.error e

/-- `NetworkActivator.bring_up_interfaces` (the classmethod default):
`all(cls.bring_up_interface(device) for device in device_names)`.
Generic in the per-interface primitive `f` (the `cls` dispatch); Python's
`all` over a generator evaluates lazily, stopping at the first `False`. -/
def bring_up_interfaces (f : String → Except PyErr (Bool × List Event)) :
    List String → Except PyErr (Bool × List Event)
  | [] => Except.ok (true, [])
  | d :: ds =>
    match f d with
    | .error e => Except.error e
    | .ok (b, t) =>
      if b then
        match bring_up_interfaces f ds with
        | .error e => Except.error e
        | .ok (b2, t2) => Except.ok (b2, t ++ t2)
      else
        Except.ok (false, t)

/-! ## IfUpDownActivator (identifier `eni`) -/

/-- `IfUpDownActivator.available()`: `eni.available()`. -/
def ifupdown_available (env : Env) : Bool :=
  env.eniAvailable

/-- `IfUpDownActivator.bring_up_interface`: run `ifup <dev>`. -/
def ifupdown_bring_up_interface (env : Env) (device_name : String) :
    Except PyErr (Bool × List Event) :=
  alter_interface env ["ifup", device_name] device_name true

/-- `IfUpDownActivator.bring_down_interface`: run `ifdown <dev>`. -/
def ifupdown_bring_down_interface (env : Env) (device_name : String) :
    Except PyErr (Bool × List Event) :=
  alter_interface env ["ifdown", device_name] device_name true

/-! ## IfConfigActivator (identifier `ifconfig`) -/

/-- `IfConfigActivator.available()`: `bool(subp.which("ifconfig", search=["/sbin"]))`. -/
def ifconfig_available (env : Env) : Bool :=
  env.ifconfigWhich

/-- `IfConfigActivator.bring_up_interface`: run `ifconfig <dev> up`. -/
def ifconfig_bring_up_interface (env : Env) (device_name : String) :
    Except PyErr (Bool × List Event) :=
  alter_interface env ["ifconfig", device_name, "up"] device_name true

/-- `IfConfigActivator.bring_down_interface`: run `ifconfig <dev> down`. -/
def ifconfig_bring_down_interface (env : Env) (device_name : String) :
    Except PyErr (Bool × List Event) :=
  alter_interface env ["ifconfig", device_name, "down"] device_name true

/-! ## NetworkManagerActivator (identifier `network-manager`) -/

/-- `NetworkManagerActivator.available()`: `network_manager.available()`. -/
def nm_available (env : Env) : Bool :=
  env.networkManagerAvailable

/-- `NetworkManagerActivator.bring_up_interface`: look up the connection
file; if none, warn and return `False`.  Otherwise `nmcli connection load
<filename>`; on success bring up by `filename`, on failure `nmcli connection
reload` then bring up by `ifname`. -/
def nm_bring_up_interface (env : Env) (device_name : String) :
    Except PyErr (Bool × List Event) :=
  match env.connFilename device_name with
  | none =>
      Except.ok (false,
        [Event.log LogLevel.warning
          "Unable to find an interface config file. Unable to bring up interface."])
  | some filename =>
    match alter_interface env ["nmcli", "connection", "load", filename]
        device_name true with
    | .error e => Except.error e
    | .ok (loaded, t1) =>
      if loaded then
        match alter_interface env ["nmcli", "connection", "up", "filename", filename]
            device_name true with
        | .error e => Except.error e
        | .ok (b, t2) => Except.ok (b, t1 ++ t2)
      else
        match alter_interface env ["nmcli", "connection", "reload"]
            device_name true with
        | .error e => Except.error e
        | .ok (_, tr) =>
          match alter_interface env ["nmcli", "connection", "up", "ifname", device_name]
              device_name true with
          | .error e => Except.error e
          | .ok (b, t2) => Except.ok (b, t1 ++ tr ++ t2)

/-- `NetworkManagerActivator.bring_down_interface`: `nmcli device disconnect <dev>`. -/
def nm_bring_down_interface (env : Env) (device_name : String) :
    Except PyErr (Bool × List Event) :=
  alter_interface env ["nmcli", "device", "disconnect", device_name] device_name true

/-- Python `str.rstrip()` with no argument: drop trailing whitespace. -/
def pyRstrip (s : String) : String :=
  s.dropRightWhile Char.isWhitespace

/-- `NetworkManagerActivator.bring_up_interfaces` (override): query the
service sub-state via a direct `subp.subp` call (a `ProcessExecutionError`
there propagates — it is not routed through `_alter_interface`), warn if not
running, then `systemctl try-reload-or-restart` and, short-circuiting on
failure, the per-interface loop. -/
def nm_bring_up_interfaces (env : Env) (device_names : List String) :
    Except PyErr (Bool × List Event) :=
  let showCmd := ["systemctl", "show", "--property=SubState", "NetworkManager.service"]
  match env.run showCmd with
  | .fail => Except.error (PyErr.processExecutionError showCmd)
  | .exc m => Except.error (PyErr.other m)
  | .success out _err =>
    let state := pyRstrip out
    let warnTrace :=
      if "SubState=running" ≠ state then
        [Event.log LogLevel.warning
          ("Expected NetworkManager SubState=running, but detected: " ++ state)]
      else []
    match alter_interface env
        ["systemctl", "try-reload-or-restart", "NetworkManager.service"] "all" true with
    | .error e => Except.error e
    | .ok (restarted, t1) =>
      if restarted then
        match bring_up_interfaces (nm_bring_up_interface env) device_names with
        | .error e => Except.error e
        | .ok (b, t2) =>
            Except.ok (b, Event.rawCmd showCmd :: (warnTrace ++ t1 ++ t2))
      else
        Except.ok (false, Event.rawCmd showCmd :: (warnTrace ++ t1))

/-! ## NetplanActivator (identifier `netplan`) -/

/-- `NetplanActivator.NETPLAN_CMD`. -/
def NETPLAN_CMD : List String :=
  ["netplan", "apply"]

/-- `NetplanActivator.available()`: `netplan.available()`. -/
def netplan_available (env : Env) : Bool :=
  env.netplanAvailable

/-- The debug line each netplan operation logs before the global apply. -/
def netplanDebugMsg : String :=
  "Calling \x27netplan apply\x27 rather than altering individual interfaces"

/-- The shared body of the netplan operations: debug log, then
`_alter_interface(NETPLAN_CMD, "all", warn_on_stderr=False)`. -/
def netplan_apply (env : Env) : Except PyErr (Bool × List Event) :=
  match alter_interface env NETPLAN_CMD "all" false with
  | .error e => Except.error e
  | .ok (b, t) => Except.ok (b, Event.log LogLevel.debug netplanDebugMsg :: t)

/-- `NetplanActivator.bring_up_interface`: ignores the device name. -/
def netplan_bring_up_interface (env : Env) (_device_name : String) :
    Except PyErr (Bool × List Event) :=
  netplan_apply env

/-- `NetplanActivator.bring_up_interfaces` (override): ignores the names. -/
def netplan_bring_up_interfaces (env : Env) (_device_names : List String) :
    Except PyErr (Bool × List Event) :=
  netplan_apply env

/-- `NetplanActivator.bring_down_interface`: ignores the device name. -/
def netplan_bring_down_interface (env : Env) (_device_name : String) :
    Except PyErr (Bool × List Event) :=
  netplan_apply env

/-! ## NetworkdActivator (identifier `networkd`) -/

/-- `NetworkdActivator.available()`: `networkd.available()`. -/
def networkd_available (env : Env) : Bool :=
  env.networkdAvailable

/-- `NetworkdActivator.bring_up_interface`: `_alter_interface_callable`
on `partial(Iproute2.link_up, device_name)`. -/
def networkd_bring_up_interface (env : Env) (device_name : String) :
    Except PyErr (Bool × List Event) :=
  alter_interface_callable (env.linkUp device_name) true

/-- `NetworkdActivator.bring_down_interface`: `_alter_interface_callable`
on `partial(Iproute2.link_down, device_name)`. -/
def networkd_bring_down_interface (env : Env) (device_name : String) :
    Except PyErr (Bool × List Event) :=
  alter_interface_callable (env.linkDown device_name) true

/-- `NetworkdActivator.wait_for_network`: a direct `subp.subp` call to start
the wait-online unit; a `ProcessExecutionError` propagates. -/
def networkd_wait_for_network (env : Env) : Except PyErr (Unit × List Event) :=
  let cmd := ["systemctl", "start", "systemd-networkd-wait-online.service"]
  match env.run cmd with
  | .success _ _ => Except.ok ((), [Event.rawCmd cmd])
  | .fail => Except.error (PyErr.processExecutionError cmd)
  | .exc m => Except.error (PyErr.other m)

/-! ## Registry and selection -/

/-- The five concrete activator classes. -/
inductive ActivatorId where
  | ifUpDown
  | netplan
  | networkManager
  | networkd
  | ifconfig
  deriving DecidableEq, Repr

/-- `available()` of an activator class, dispatched by class. -/
def availableOf (env : Env) : ActivatorId → Bool
  | .ifUpDown => ifupdown_available env
  | .netplan => netplan_available env
  | .networkManager => nm_available env
  | .networkd => networkd_available env
  | .ifconfig => ifconfig_available env

/-- `DEFAULT_PRIORITY`. -/
def DEFAULT_PRIORITY : List String :=
  ["eni", "netplan", "network-manager", "networkd", "ifconfig"]

/-- `NAME_TO_ACTIVATOR`: the dict from identifier to activator class. -/
def NAME_TO_ACTIVATOR : String → Option ActivatorId
  | "eni" => some ActivatorId.ifUpDown
  | "netplan" => some ActivatorId.netplan
  | "network-manager" => some ActivatorId.networkManager
  | "networkd" => some ActivatorId.networkd
  | "ifconfig" => some ActivatorId.ifconfig
  | _ => none

/-- `next((a for a in classes if a.available()), None)`: the generator probes
each class's `available()` in order until the first `True`.  Returns the
result together with the list of classes actually probed. -/
def firstAvailable (avail : ActivatorId → Bool) :
    List ActivatorId → Option ActivatorId × List ActivatorId
  | [] => (none, [])
  | a :: rest =>
    if avail a then
      (some a, [a])
    else
      let (r, probed) := firstAvailable avail rest
      (r, a :: probed)

/-- `search_activator(priority)`: validate all identifiers against
`DEFAULT_PRIORITY`, raising `ValueError` naming the unknown ones; otherwise
probe the classes in priority order and return the first available, or
`None`.  The second component records which `available()` probes ran. -/
def search_activator (avail : ActivatorId → Bool) (priority : List String) :
    Except PyErr (Option ActivatorId) × List ActivatorId :=
  let unknown := priority.filter (fun i => !(DEFAULT_PRIORITY.contains i))
  if unknown ≠ [] then
    (Except.error (PyErr.valueError
      ("Unknown activators provided in priority list: " ++ pyStrList unknown)), [])
  else
    let activator_classes := priority.filterMap NAME_TO_ACTIVATOR
    let (r, probed) := firstAvailable avail activator_classes
    (Except.ok r, probed)

/-- `select_activator(priority)`: default the priority list, search, and
raise `NoActivatorException` naming the searched list when nothing was
found.  The second component again records the probes run. -/
def select_activator (avail : ActivatorId → Bool) (priority : Option (List String)) :
    Except PyErr ActivatorId × List ActivatorId :=
  let p := priority.getD DEFAULT_PRIORITY
  match search_activator avail p with
  | (.error e, probed) => (Except.error e, probed)
  | (.ok none, probed) =>
      (Except.error (PyErr.noActivator
        ("No available network activators found. Searched through list: " ++ pyStrList p)),
       probed)
  | (.ok (some a), probed) => (Except.ok a, probed)

/-- Extract the commands issued through `_alter_interface` from a trace,
together with the `warn_on_stderr` flag each was issued with. -/
def cmdsOf : List Event → List (List String × Bool)
  | [] => []
  | Event.cmd c w :: rest => (c, w) :: cmdsOf rest
  | _ :: rest => cmdsOf rest

/-- The environment raises only expected `ProcessExecutionError`s: no
command result and no Iproute2 callable result is an unclassified
exception. -/
def Env.expectedOnly (env : Env) : Prop :=
  (∀ c m, env.run c ≠ RunResult.exc m) ∧
  (∀ d m, env.linkUp d ≠ CallableOutcome.otherFailure m) ∧
  (∀ d m, env.linkDown d ≠ CallableOutcome.otherFailure m)

/-- Commands issued by a finished operation: `none` when the operation
raised, otherwise the `_alter_interface` commands of its trace. -/
def cmdsOfRes : Except PyErr (Bool × List Event) → Option (List (List String × Bool))
  | .ok (_, t) => some (cmdsOf t)
  | .error _ => none

/-! ## Helper lemmas -/

/-- Whether a `subp.subp` outcome is a normal completion. -/
def runOk : RunResult → Bool
  | .success _ _ => true
  | _ => false

/-- Trace produced by `_alter_interface` on a non-`exc` run result. -/
def alterTrace (cmd : List String) (w : Bool) : RunResult → List Event
  | .success _ e =>
      Event.cmd cmd w ::
        (if e.length ≠ 0 then
          [Event.log (if w then LogLevel.warning else LogLevel.debug)
            ("Received stderr output: " ++ e)]
        else [])
  | .fail =>
      [Event.cmd cmd w,
       Event.log LogLevel.warning
         ("Running interface command " ++ pyStrList cmd ++ " failed")]
  | .exc _ => []

theorem cmdsOf_append (a b : List Event) :
    cmdsOf (a ++ b) = cmdsOf a ++ cmdsOf b := by
  induction a with
  | nil => rfl
  | cons e rest ih => cases e <;> simp [cmdsOf, ih]

theorem alter_interface_eq (env : Env) (cmd : List String) (dn : String) (w : Bool)
    (h : ∀ m, env.run cmd ≠ RunResult.exc m) :
    alter_interface env cmd dn w =
      Except.ok (runOk (env.run cmd), alterTrace cmd w (env.run cmd)) := by
  cases hr : env.run cmd with
  | success o e =>
      by_cases he : e.length ≠ 0 <;>
        simp [alter_interface, alter_interface_callable, runToOutcome, hr, he,
          runOk, alterTrace]
  | fail =>
      simp [alter_interface, alter_interface_callable, runToOutcome, hr,
        runOk, alterTrace]
  | exc m => exact absurd hr (h m)

theorem cmdsOf_alterTrace (cmd : List String) (w : Bool) (r : RunResult)
    (h : ∀ m, r ≠ RunResult.exc m) :
    cmdsOf (alterTrace cmd w r) = [(cmd, w)] := by
  cases r with
  | success o e =>
      by_cases he : e.length ≠ 0 <;> simp [alterTrace, cmdsOf, he]
  | fail => simp [alterTrace, cmdsOf]
  | exc m => exact absurd rfl (h m)

/-! ## Claim theorems -/

/-- C4: on a `ProcessExecutionError` the command execution bridge returns
`False` without raising, logging the failure with the failed command's
context; an exception of any other type propagates to the caller
unchanged. -/
theorem alter_interface_callable_failure_semantics
    (cmd : List String) (w : Bool) (msg : String) :
    alter_interface_callable (CallableOutcome.processError cmd) w =
      Except.ok (false,
        [Event.log LogLevel.warning
          ("Running interface command " ++ pyStrList cmd ++ " failed")]) ∧
    alter_interface_callable (CallableOutcome.otherFailure msg) w =
      Except.error (PyErr.other msg) :=
  ⟨rfl, rfl⟩

/-- C5: on a successful command the bridge returns `True`; non-empty stderr
is logged at WARNING severity by default and at DEBUG severity when
`warn_on_stderr` is false, and empty stderr is not logged. -/
theorem alter_interface_callable_success_semantics (out err : String) :
    alter_interface_callable (CallableOutcome.success out err) true =
      Except.ok (true,
        if err.length ≠ 0 then
          [Event.log LogLevel.warning ("Received stderr output: " ++ err)]
        else []) ∧
    alter_interface_callable (CallableOutcome.success out err) false =
      Except.ok (true,
        if err.length ≠ 0 then
          [Event.log LogLevel.debug ("Received stderr output: " ++ err)]
        else []) := by
  constructor <;>
    · by_cases he : err.length ≠ 0 <;> simp [alter_interface_callable, he]

/-- C10: when no connection file is found for the interface, the
NetworkManager activator's `bring_up_interface` logs a warning and returns
`False`, issuing no external command. -/
theorem nm_bring_up_interface_no_conn_file (env : Env) (d : String)
    (h : env.connFilename d = none) :
    nm_bring_up_interface env d =
      Except.ok (false,
        [Event.log LogLevel.warning
          "Unable to find an interface config file. Unable to bring up interface."]) ∧
    cmdsOfRes (nm_bring_up_interface env d) = some [] := by
  have he : nm_bring_up_interface env d =
      Except.ok (false,
        [Event.log LogLevel.warning
          "Unable to find an interface config file. Unable to bring up interface."]) := by
    unfold nm_bring_up_interface
    rw [h]
  exact ⟨he, by rw [he]; rfl⟩

/-- A concrete environment for witnesses: every command succeeds silently,
no connection file exists, nothing is available. -/
def envBase : Env where
  run := fun _ => RunResult.success "" ""
  connFilename := fun _ => none
  eniAvailable := false
  netplanAvailable := false
  networkManagerAvailable := false
  networkdAvailable := false
  ifconfigWhich := false
  linkUp := fun _ => CallableOutcome.success "" ""
  linkDown := fun _ => CallableOutcome.success "" ""

/-- Witness for C10 at the concrete environment `envBase` and device
`eth0`. -/
theorem nm_bring_up_interface_no_conn_file_witness :
    envBase.connFilename "eth0" = none ∧
    (nm_bring_up_interface envBase "eth0" =
      Except.ok (false,
        [Event.log LogLevel.warning
          "Unable to find an interface config file. Unable to bring up interface."]) ∧
     cmdsOfRes (nm_bring_up_interface envBase "eth0") = some []) :=
  ⟨rfl, nm_bring_up_interface_no_conn_file envBase "eth0" rfl⟩

/-- C8: a priority list containing unknown identifiers makes
`search_activator` (and hence `select_activator`) raise a `ValueError`
naming exactly the unknown identifiers, before any `available()` probe is
run. -/
theorem search_activator_unknown_identifiers (avail : ActivatorId → Bool)
    (priority : List String)
    (h : priority.filter (fun i => !(DEFAULT_PRIORITY.contains i)) ≠ []) :
    search_activator avail priority =
      (Except.error (PyErr.valueError
        ("Unknown activators provided in priority list: " ++
          pyStrList (priority.filter (fun i => !(DEFAULT_PRIORITY.contains i))))), []) ∧
    select_activator avail (some priority) =
      (Except.error (PyErr.valueError
        ("Unknown activators provided in priority list: " ++
          pyStrList (priority.filter (fun i => !(DEFAULT_PRIORITY.contains i))))), []) := by
  have hs : search_activator avail priority =
      (Except.error (PyErr.valueError
        ("Unknown activators provided in priority list: " ++
          pyStrList (priority.filter (fun i => !(DEFAULT_PRIORITY.contains i))))), []) := by
    unfold search_activator
    dsimp only
    rw [if_pos h]
  refine ⟨hs, ?_⟩
  unfold select_activator
  simp only [Option.getD_some, hs]

/-- Witness for C8 at the concrete priority list `["foo"]`: the error names
exactly `['foo']` and no probe runs. -/
theorem search_activator_unknown_identifiers_witness :
    (["foo"].filter (fun i => !(DEFAULT_PRIORITY.contains i)) ≠ []) ∧
    (search_activator (fun _ => false) ["foo"] =
      (Except.error (PyErr.valueError
        ("Unknown activators provided in priority list: " ++
          pyStrList (["foo"].filter (fun i => !(DEFAULT_PRIORITY.contains i))))), []) ∧
     select_activator (fun _ => false) (some ["foo"]) =
      (Except.error (PyErr.valueError
        ("Unknown activators provided in priority list: " ++
          pyStrList (["foo"].filter (fun i => !(DEFAULT_PRIORITY.contains i))))), [])) ∧
    pyStrList (["foo"].filter (fun i => !(DEFAULT_PRIORITY.contains i))) =
      "[\x27foo\x27]" :=
  ⟨by decide,
   search_activator_unknown_identifiers (fun _ => false) ["foo"] (by decide),
   by decide⟩

/-- The generator probe either finds nothing (and every class probed false)
or finds exactly the first class, in list order, whose probe is true. -/
theorem firstAvailable_characterization (avail : ActivatorId → Bool)
    (l : List ActivatorId) :
    ((firstAvailable avail l).1 = none ∧ ∀ a ∈ l, avail a = false) ∨
    (∃ pre a post, l = pre ++ a :: post ∧ avail a = true ∧
      (∀ b ∈ pre, avail b = false) ∧ (firstAvailable avail l).1 = some a) := by
  induction l with
  | nil => exact Or.inl ⟨rfl, by simp⟩
  | cons x rest ih =>
    by_cases hx : avail x = true
    · exact Or.inr ⟨[], x, rest, by simp, hx, by simp, by simp [firstAvailable, hx]⟩
    · have hx' : avail x = false := by simpa using hx
      rcases hfa : firstAvailable avail rest with ⟨r, probed⟩
      rcases ih with ⟨hnone, hall⟩ | ⟨pre, a, post, hl, ha, hpre, hfst⟩
      · refine Or.inl ⟨?_, ?_⟩
        · rw [hfa] at hnone
          simp [firstAvailable, hx', hfa, hnone]
        · intro b hb
          rcases List.mem_cons.mp hb with hb1 | hb2
          · exact hb1 ▸ hx'
          · exact hall b hb2
      · refine Or.inr ⟨x :: pre, a, post, by simp [hl], ha, ?_, ?_⟩
        · intro b hb
          rcases List.mem_cons.mp hb with hb1 | hb2
          · exact hb1 ▸ hx'
          · exact hpre b hb2
        · rw [hfa] at hfst
          simp [firstAvailable, hx', hfa, hfst]

/-- C1: on a priority list of known identifiers, `search_activator` either
returns `None` with every probed class unavailable, or returns the first
class, in priority order, whose `available()` probe is true. -/
theorem search_activator_first_match (avail : ActivatorId → Bool)
    (priority : List String)
    (h : ∀ i ∈ priority, DEFAULT_PRIORITY.contains i = true) :
    ((search_activator avail priority).1 = Except.ok none ∧
      ∀ a ∈ priority.filterMap NAME_TO_ACTIVATOR, avail a = false) ∨
    (∃ pre a post, priority.filterMap NAME_TO_ACTIVATOR = pre ++ a :: post ∧
      avail a = true ∧ (∀ b ∈ pre, avail b = false) ∧
      (search_activator avail priority).1 = Except.ok (some a)) := by
  have hmem : ∀ i ∈ priority, i ∈ DEFAULT_PRIORITY := fun i hi => by
    simpa using h i hi
  have hfil : priority.filter (fun i => !(DEFAULT_PRIORITY.contains i)) = [] := by
    rw [List.filter_eq_nil_iff]
    intro i hi
    simpa using hmem i hi
  have hs : search_activator avail priority =
      (Except.ok (firstAvailable avail (priority.filterMap NAME_TO_ACTIVATOR)).1,
       (firstAvailable avail (priority.filterMap NAME_TO_ACTIVATOR)).2) := by
    unfold search_activator
    dsimp only
    rw [if_neg (fun hc => hc hfil)]
  rcases firstAvailable_characterization avail (priority.filterMap NAME_TO_ACTIVATOR)
    with ⟨hnone, hall⟩ | ⟨pre, a, post, hl, ha, hpre, hfst⟩
  · exact Or.inl ⟨by rw [hs]; exact congrArg Except.ok hnone, hall⟩
  · exact Or.inr ⟨pre, a, post, hl, ha, hpre,
      by rw [hs]; exact congrArg Except.ok hfst⟩

/-- Witness for C1: priority `["netplan", "networkd"]` with only the
networkd probe true. -/
theorem search_activator_first_match_witness :
    (∀ i ∈ ["netplan", "networkd"], DEFAULT_PRIORITY.contains i = true) ∧
    ((((search_activator (fun a => a == ActivatorId.networkd)
          ["netplan", "networkd"]).1 = Except.ok none ∧
        ∀ a ∈ (["netplan", "networkd"] : List String).filterMap NAME_TO_ACTIVATOR,
          (fun a => a == ActivatorId.networkd) a = false) ∨
      (∃ pre a post,
        (["netplan", "networkd"] : List String).filterMap NAME_TO_ACTIVATOR =
          pre ++ a :: post ∧
        (fun a => a == ActivatorId.networkd) a = true ∧
        (∀ b ∈ pre, (fun a => a == ActivatorId.networkd) b = false) ∧
        (search_activator (fun a => a == ActivatorId.networkd)
          ["netplan", "networkd"]).1 = Except.ok (some a)))) ∧
    (search_activator (fun a => a == ActivatorId.networkd)
      ["netplan", "networkd"]).1 = Except.ok (some ActivatorId.networkd) :=
  ⟨by decide,
   search_activator_first_match (fun a => a == ActivatorId.networkd)
     ["netplan", "networkd"] (by decide),
   rfl⟩

/-- C9: `select_activator` with no priority list searches exactly the
default order, and when no activator is available raises
`NoActivatorException` naming the literal searched list. -/
theorem select_activator_default_priority (avail : ActivatorId → Bool)
    (h : ∀ a, avail a = false) :
    (∀ av : ActivatorId → Bool,
      select_activator av none = select_activator av (some DEFAULT_PRIORITY)) ∧
    select_activator avail none =
      (Except.error (PyErr.noActivator
        "No available network activators found. Searched through list: [\x27eni\x27, \x27netplan\x27, \x27network-manager\x27, \x27networkd\x27, \x27ifconfig\x27]"),
       [ActivatorId.ifUpDown, ActivatorId.netplan, ActivatorId.networkManager,
        ActivatorId.networkd, ActivatorId.ifconfig]) := by
  refine ⟨fun av => rfl, ?_⟩
  have hsearch : search_activator avail DEFAULT_PRIORITY =
      (Except.ok none,
       [ActivatorId.ifUpDown, ActivatorId.netplan, ActivatorId.networkManager,
        ActivatorId.networkd, ActivatorId.ifconfig]) := by
    unfold search_activator
    dsimp only
    rw [if_neg (by decide)]
    simp [DEFAULT_PRIORITY, NAME_TO_ACTIVATOR, firstAvailable, h]
  unfold select_activator
  simp only [Option.getD_none, hsearch]
  rfl

/-- Witness for C9 with every availability probe false. -/
theorem select_activator_default_priority_witness :
    (∀ a : ActivatorId, (fun _ : ActivatorId => false) a = false) ∧
    ((∀ av : ActivatorId → Bool,
      select_activator av none = select_activator av (some DEFAULT_PRIORITY)) ∧
    select_activator (fun _ : ActivatorId => false) none =
      (Except.error (PyErr.noActivator
        "No available network activators found. Searched through list: [\x27eni\x27, \x27netplan\x27, \x27network-manager\x27, \x27networkd\x27, \x27ifconfig\x27]"),
       [ActivatorId.ifUpDown, ActivatorId.netplan, ActivatorId.networkManager,
        ActivatorId.networkd, ActivatorId.ifconfig])) :=
  ⟨fun _ => rfl,
   select_activator_default_priority (fun _ => false) (fun _ => rfl)⟩

/-- C2: the default `bring_up_interfaces` short-circuits: when every
interface before `d` succeeds and `d` fails, the result is the same as if
the interfaces after `d` were absent (none of them is attempted), and the
overall result is `False`. -/
theorem bring_up_interfaces_short_circuit
    (f : String → Except PyErr (Bool × List Event))
    (pre : List String) (d : String) (post : List String)
    (hpre : ∀ p ∈ pre, ∃ t, f p = Except.ok (true, t))
    (hd : ∃ td, f d = Except.ok (false, td)) :
    bring_up_interfaces f (pre ++ d :: post) = bring_up_interfaces f (pre ++ [d]) ∧
    ∃ t, bring_up_interfaces f (pre ++ d :: post) = Except.ok (false, t) := by
  induction pre with
  | nil =>
    obtain ⟨td, htd⟩ := hd
    exact ⟨by simp [bring_up_interfaces, htd],
           td, by simp [bring_up_interfaces, htd]⟩
  | cons p ps ih =>
    obtain ⟨tp, htp⟩ := hpre p (List.mem_cons_self p ps)
    obtain ⟨heq, t, ht⟩ := ih (fun q hq => hpre q (List.mem_cons_of_mem p hq))
    constructor
    · show bring_up_interfaces f (p :: (ps ++ d :: post)) =
        bring_up_interfaces f (p :: (ps ++ [d]))
      simp [bring_up_interfaces, htp, heq]
    · refine ⟨tp ++ t, ?_⟩
      show bring_up_interfaces f (p :: (ps ++ d :: post)) = _
      simp [bring_up_interfaces, htp, ht]

/-- An abstract per-interface primitive for the C2 witness: activation
succeeds for every device except `eth0`, recording each attempt. -/
def probeEth0 : String → Except PyErr (Bool × List Event) :=
  fun s => Except.ok (s != "eth0", [Event.call s])

/-- Witness for C2: with `eth0` failing, `bring_up_interfaces` over
`["eth0", "eth1"]` makes exactly one call and returns `False`. -/
theorem bring_up_interfaces_short_circuit_witness :
    (∀ p ∈ ([] : List String), ∃ t, probeEth0 p = Except.ok (true, t)) ∧
    (∃ td, probeEth0 "eth0" = Except.ok (false, td)) ∧
    bring_up_interfaces probeEth0 ["eth0", "eth1"] =
      Except.ok (false, [Event.call "eth0"]) ∧
    (bring_up_interfaces probeEth0 ([] ++ "eth0" :: ["eth1"]) =
        bring_up_interfaces probeEth0 ([] ++ ["eth0"]) ∧
      ∃ t, bring_up_interfaces probeEth0 ([] ++ "eth0" :: ["eth1"]) =
        Except.ok (false, t)) :=
  ⟨by simp,
   ⟨[Event.call "eth0"], rfl⟩,
   rfl,
   bring_up_interfaces_short_circuit probeEth0 [] "eth0" ["eth1"]
     (by simp) ⟨[Event.call "eth0"], rfl⟩⟩

/-- C6: the netplan activator's `bring_up_interface`, `bring_down_interface`
and `bring_up_interfaces` are one and the same global apply, independent of
the interface name(s), issuing exactly `netplan apply` with
`warn_on_stderr` false. -/
theorem netplan_global_apply_identical (env : Env) (d d2 : String) (ds : List String)
    (h : ∀ m, env.run NETPLAN_CMD ≠ RunResult.exc m) :
    netplan_bring_up_interface env d = netplan_bring_down_interface env d2 ∧
    netplan_bring_up_interface env d = netplan_bring_up_interfaces env ds ∧
    cmdsOfRes (netplan_bring_up_interface env d) = some [(NETPLAN_CMD, false)] := by
  refine ⟨rfl, rfl, ?_⟩
  unfold netplan_bring_up_interface netplan_apply
  rw [alter_interface_eq env NETPLAN_CMD "all" false h]
  simp [cmdsOfRes, cmdsOf,
    cmdsOf_alterTrace NETPLAN_CMD false (env.run NETPLAN_CMD) h]

/-- Witness for C6 at `envBase` with distinct device names. -/
theorem netplan_global_apply_identical_witness :
    (∀ m, envBase.run NETPLAN_CMD ≠ RunResult.exc m) ∧
    (netplan_bring_up_interface envBase "eth0" =
        netplan_bring_down_interface envBase "eth1" ∧
     netplan_bring_up_interface envBase "eth0" =
        netplan_bring_up_interfaces envBase ["a", "b"] ∧
     cmdsOfRes (netplan_bring_up_interface envBase "eth0") =
        some [(NETPLAN_CMD, false)]) :=
  ⟨fun _ hm => RunResult.noConfusion hm,
   netplan_global_apply_identical envBase "eth0" "eth1" ["a", "b"]
     (fun _ hm => RunResult.noConfusion hm)⟩

/-- C7: the NetworkManager activator's `bring_up_interface` is two-step:
when the `nmcli connection load` fails it issues a full `connection reload`
and retries bring-up addressed by `ifname` with the interface name; when
the load succeeds, bring-up is addressed by `filename` with the file
path. -/
theorem nm_bring_up_interface_two_step (env : Env) (d fn : String)
    (hE : env.expectedOnly)
    (hf : env.connFilename d = some fn) :
    (env.run ["nmcli", "connection", "load", fn] = RunResult.fail →
      cmdsOfRes (nm_bring_up_interface env d) =
        some [(["nmcli", "connection", "load", fn], true),
              (["nmcli", "connection", "reload"], true),
              (["nmcli", "connection", "up", "ifname", d], true)]) ∧
    (∀ o e, env.run ["nmcli", "connection", "load", fn] = RunResult.success o e →
      cmdsOfRes (nm_bring_up_interface env d) =
        some [(["nmcli", "connection", "load", fn], true),
              (["nmcli", "connection", "up", "filename", fn], true)]) := by
  obtain ⟨hrun, _, _⟩ := hE
  constructor
  · intro hload
    have hro : runOk (env.run ["nmcli", "connection", "load", fn]) = false := by
      rw [hload]
      rfl
    unfold nm_bring_up_interface
    rw [hf]
    dsimp only
    rw [alter_interface_eq env ["nmcli", "connection", "load", fn] d true (hrun _),
      alter_interface_eq env ["nmcli", "connection", "reload"] d true (hrun _),
      alter_interface_eq env ["nmcli", "connection", "up", "ifname", d] d true (hrun _)]
    simp [hro, cmdsOfRes, cmdsOf_append,
      cmdsOf_alterTrace ["nmcli", "connection", "load", fn] true _ (hrun _),
      cmdsOf_alterTrace ["nmcli", "connection", "reload"] true _ (hrun _),
      cmdsOf_alterTrace ["nmcli", "connection", "up", "ifname", d] true _ (hrun _)]
  · intro o e hload
    have hro : runOk (env.run ["nmcli", "connection", "load", fn]) = true := by
      rw [hload]
      rfl
    unfold nm_bring_up_interface
    rw [hf]
    dsimp only
    rw [alter_interface_eq env ["nmcli", "connection", "load", fn] d true (hrun _),
      alter_interface_eq env ["nmcli", "connection", "up", "filename", fn] d true (hrun _)]
    simp [hro, cmdsOfRes, cmdsOf_append,
      cmdsOf_alterTrace ["nmcli", "connection", "load", fn] true _ (hrun _),
      cmdsOf_alterTrace ["nmcli", "connection", "up", "filename", fn] true _ (hrun _)]

/-- An environment in which every external command reports a
`ProcessExecutionError` — an expected process failure everywhere. -/
def envAllFail : Env :=
  { envBase with run := fun _ => RunResult.fail }

/-- Witness for C7 at `envAllFail` (so the connection load fails), with a
connection file present for `eth0`. -/
theorem nm_bring_up_interface_two_step_witness :
    Env.expectedOnly
      { envAllFail with connFilename := fun _ => some "/run/eth0.nmconnection" } ∧
    ({ envAllFail with
        connFilename := fun _ => some "/run/eth0.nmconnection" : Env}.connFilename
      "eth0" = some "/run/eth0.nmconnection") ∧
    cmdsOfRes (nm_bring_up_interface
        { envAllFail with connFilename := fun _ => some "/run/eth0.nmconnection" }
        "eth0") =
      some [(["nmcli", "connection", "load", "/run/eth0.nmconnection"], true),
            (["nmcli", "connection", "reload"], true),
            (["nmcli", "connection", "up", "ifname", "eth0"], true)] := by
  have hE : Env.expectedOnly
      { envAllFail with connFilename := fun _ => some "/run/eth0.nmconnection" } :=
    ⟨fun _ _ hm => RunResult.noConfusion hm,
     fun _ _ hm => CallableOutcome.noConfusion hm,
     fun _ _ hm => CallableOutcome.noConfusion hm⟩
  refine ⟨hE, rfl, ?_⟩
  exact (nm_bring_up_interface_two_step
    { envAllFail with connFilename := fun _ => some "/run/eth0.nmconnection" }
    "eth0" "/run/eth0.nmconnection" hE rfl).1 rfl

/-- Every bring-up/bring-down primitive that routes its commands through the
bridge returns normally (a boolean) whenever the environment produces only
expected process failures. -/
theorem alter_interface_callable_ok (r : CallableOutcome) (w : Bool)
    (h : ∀ m, r ≠ CallableOutcome.otherFailure m) :
    ∃ v, alter_interface_callable r w = Except.ok v := by
  cases r with
  | success o e =>
    unfold alter_interface_callable
    dsimp only
    split
    · exact ⟨_, rfl⟩
    · exact ⟨_, rfl⟩
  | processError c => exact ⟨_, rfl⟩
  | otherFailure m => exact absurd rfl (h m)

theorem nm_bring_up_interface_ok (env : Env) (d : String)
    (hrun : ∀ c m, env.run c ≠ RunResult.exc m) :
    ∃ r, nm_bring_up_interface env d = Except.ok r := by
  unfold nm_bring_up_interface
  cases hcf : env.connFilename d with
  | none => exact ⟨_, rfl⟩
  | some fn =>
    dsimp only
    rw [alter_interface_eq env ["nmcli", "connection", "load", fn] d true (hrun _),
      alter_interface_eq env ["nmcli", "connection", "up", "filename", fn] d true (hrun _),
      alter_interface_eq env ["nmcli", "connection", "reload"] d true (hrun _),
      alter_interface_eq env ["nmcli", "connection", "up", "ifname", d] d true (hrun _)]
    dsimp only
    split
    · exact ⟨_, rfl⟩
    · exact ⟨_, rfl⟩

/-- C3 (amended): under an environment producing only expected process
failures, every single-interface primitive of every variant, and the
netplan `bring_up_interfaces` override, return a boolean without raising:
process failures are absorbed by the bridge. -/
theorem variants_absorb_process_failures (env : Env) (d : String) (ds : List String)
    (hE : env.expectedOnly) :
    (∃ r, ifupdown_bring_up_interface env d = Except.ok r) ∧
    (∃ r, ifupdown_bring_down_interface env d = Except.ok r) ∧
    (∃ r, ifconfig_bring_up_interface env d = Except.ok r) ∧
    (∃ r, ifconfig_bring_down_interface env d = Except.ok r) ∧
    (∃ r, nm_bring_up_interface env d = Except.ok r) ∧
    (∃ r, nm_bring_down_interface env d = Except.ok r) ∧
    (∃ r, netplan_bring_up_interface env d = Except.ok r) ∧
    (∃ r, netplan_bring_down_interface env d = Except.ok r) ∧
    (∃ r, netplan_bring_up_interfaces env ds = Except.ok r) ∧
    (∃ r, networkd_bring_up_interface env d = Except.ok r) ∧
    (∃ r, networkd_bring_down_interface env d = Except.ok r) := by
  obtain ⟨hrun, hlup, hldown⟩ := hE
  refine ⟨?_, ?_, ?_, ?_, nm_bring_up_interface_ok env d hrun, ?_, ?_, ?_, ?_,
    alter_interface_callable_ok (env.linkUp d) true (hlup d),
    alter_interface_callable_ok (env.linkDown d) true (hldown d)⟩
  · exact ⟨_, alter_interface_eq env ["ifup", d] d true (hrun _)⟩
  · exact ⟨_, alter_interface_eq env ["ifdown", d] d true (hrun _)⟩
  · exact ⟨_, alter_interface_eq env ["ifconfig", d, "up"] d true (hrun _)⟩
  · exact ⟨_, alter_interface_eq env ["ifconfig", d, "down"] d true (hrun _)⟩
  · exact ⟨_, alter_interface_eq env ["nmcli", "device", "disconnect", d] d true (hrun _)⟩
  · unfold netplan_bring_up_interface netplan_apply
    rw [alter_interface_eq env NETPLAN_CMD "all" false (hrun _)]
    exact ⟨_, rfl⟩
  · unfold netplan_bring_down_interface netplan_apply
    rw [alter_interface_eq env NETPLAN_CMD "all" false (hrun _)]
    exact ⟨_, rfl⟩
  · unfold netplan_bring_up_interfaces netplan_apply
    rw [alter_interface_eq env NETPLAN_CMD "all" false (hrun _)]
    exact ⟨_, rfl⟩

/-- Counterexample to C3 as stated: in an environment where every command
reports an expected `ProcessExecutionError`, the NetworkManager activator's
`bring_up_interfaces` and the networkd activator's `wait_for_network`
propagate the exception instead of absorbing it, because their direct
`subp.subp` calls bypass the bridge. -/
theorem nm_bring_up_interfaces_raises_on_process_failure :
    Env.expectedOnly envAllFail ∧
    nm_bring_up_interfaces envAllFail ["eth0"] =
      Except.error (PyErr.processExecutionError
        ["systemctl", "show", "--property=SubState", "NetworkManager.service"]) ∧
    networkd_wait_for_network envAllFail =
      Except.error (PyErr.processExecutionError
        ["systemctl", "start", "systemd-networkd-wait-online.service"]) :=
  ⟨⟨fun _ _ hm => RunResult.noConfusion hm,
    fun _ _ hm => CallableOutcome.noConfusion hm,
    fun _ _ hm => CallableOutcome.noConfusion hm⟩,
   rfl, rfl⟩

/-- Witness for the amended C3 at `envAllFail`. -/
theorem variants_absorb_process_failures_witness :
    Env.expectedOnly envAllFail ∧
    ((∃ r, ifupdown_bring_up_interface envAllFail "eth0" = Except.ok r) ∧
    (∃ r, ifupdown_bring_down_interface envAllFail "eth0" = Except.ok r) ∧
    (∃ r, ifconfig_bring_up_interface envAllFail "eth0" = Except.ok r) ∧
    (∃ r, ifconfig_bring_down_interface envAllFail "eth0" = Except.ok r) ∧
    (∃ r, nm_bring_up_interface envAllFail "eth0" = Except.ok r) ∧
    (∃ r, nm_bring_down_interface envAllFail "eth0" = Except.ok r) ∧
    (∃ r, netplan_bring_up_interface envAllFail "eth0" = Except.ok r) ∧
    (∃ r, netplan_bring_down_interface envAllFail "eth0" = Except.ok r) ∧
    (∃ r, netplan_bring_up_interfaces envAllFail ["eth0", "eth1"] = Except.ok r) ∧
    (∃ r, networkd_bring_up_interface envAllFail "eth0" = Except.ok r) ∧
    (∃ r, networkd_bring_down_interface envAllFail "eth0" = Except.ok r)) := by
  have hE : Env.expectedOnly envAllFail :=
    ⟨fun _ _ hm => RunResult.noConfusion hm,
     fun _ _ hm => CallableOutcome.noConfusion hm,
     fun _ _ hm => CallableOutcome.noConfusion hm⟩
  exact ⟨hE, variants_absorb_process_failures envAllFail "eth0" ["eth0", "eth1"] hE⟩

end Activators
